import Mathlib

/-!
Verification of the chatui session engine (src/chatui.py) against its
specification. The Python source is shallowly embedded: conversations are
lists of role/content messages, transcript files are modelled at the level
of the JSON values `json.dump`/`json.load` exchange, the input loop's
per-line handling is a pure step function, and the spinner protocol around
the backend call is modelled as an event trace of the foreground thread.
-/

namespace ChatUI

/-- The assistant display name (source: `AI_NAME = "ChatTUI"`, line 18). -/
def AI_NAME : String := "ChatTUI"

/-- A chat message, the Python dict `{'role': ..., 'content': ...}` used
throughout `chatui.py`. -/
structure Message where
  role : String
  content : String
deriving DecidableEq, Repr

/-- A conversation: the ordered list the source keeps in the `conversation`
variable of `run_chatbot`. -/
abbrev Conversation := List Message

/-- Number of messages in `c` whose role is exactly `r`. -/
def countRole (r : String) (c : Conversation) : Nat :=
  (c.filter (fun msg => msg.role = r)).length

/-! ## Python string primitives

The source manipulates strings with `.lower()`, `.strip()`, `.startswith`,
`.endswith`, slicing (`[7:]`, `[:100]`) and `len`. Python strings are
sequences of code points, so these are modelled on the character list of a
Lean `String`. -/

/-- Python `s.lower()`: lowercase each character. -/
def lower (s : String) : String :=
  String.mk (s.data.map Char.toLower)

/-- Python `s.startswith(pre)`. -/
def pyStartsWith (s pre : String) : Bool :=
  pre.data.isPrefixOf s.data

/-- Python `s.endswith(suf)`. -/
def pyEndsWith (s suf : String) : Bool :=
  suf.data.isSuffixOf s.data

/-- Python `s[n:]`: drop the first `n` code points. -/
def pyDrop (s : String) (n : Nat) : String :=
  String.mk (s.data.drop n)

/-- Python `s[:n]`: keep the first `n` code points. -/
def pyTake (s : String) (n : Nat) : String :=
  String.mk (s.data.take n)

/-- Python `len(s)`: number of code points. -/
def pyLen (s : String) : Nat :=
  s.data.length

/-- Python `s.strip()`: remove leading and trailing whitespace. -/
def pyStrip (s : String) : String :=
  String.mk (((s.data.dropWhile Char.isWhitespace).reverse.dropWhile
    Char.isWhitespace).reverse)

/-! ## Command classification (source: `run_chatbot`, lines 195-215)

The loop reads a line, strips it, and then checks in order:
`user_input.lower() in ['quit', 'exit']`,
`user_input.lower().startswith('memory ')` (taking `user_input[7:].strip()`
as the file argument), and otherwise appends the text as a user message. -/

/-- The three ways `run_chatbot` treats a trimmed input line. -/
inductive Command where
  | quit
  | memory (file : String)
  | plain (text : String)
deriving DecidableEq, Repr

/-- Pure classification of a trimmed input line, following the source's
checks in order (lines 198, 206-207). -/
def classify (user_input : String) : Command :=
  if lower user_input = "quit" ∨ lower user_input = "exit" then
    Command.quit
  else if pyStartsWith (lower user_input) "memory " then
    Command.memory (pyStrip (pyDrop user_input 7))
  else
    Command.plain user_input

/-! ## Transcript files (source: lines 69-133)

`save_conversation_to_file` writes `json.dump(conversation, f, indent=2)`;
`load_conversation_from_file` and `read_memory` read back `json.load(f)`.
A transcript file is therefore modelled as the JSON value it holds
(`json.dump`/`json.load` are the external serializer, inverse on values);
an absent/unreadable file is `Option.none`. -/

/-- JSON values as exchanged by `json.dump` / `json.load`. -/
inductive Json where
  | str (s : String)
  | num (n : Int)
  | jsonBool (b : Bool)
  | null
  | arr (items : List Json)
  | obj (fields : List (String × Json))

/-- Python `d[key]` on a JSON object's fields (first match). -/
def jlookup (key : String) : List (String × Json) → Option Json
  | [] => none
  | (k, v) :: rest => if k = key then some v else jlookup key rest

/-- A conversation message as `json.dump` serializes it: an object with the
dict's `role` and `content` string entries. -/
def msgToJson (msg : Message) : Json :=
  Json.obj [("role", Json.str msg.role), ("content", Json.str msg.content)]

/-- The file content `save_conversation_to_file` writes (line 84):
`json.dump(conversation, ...)`, the conversation as a JSON array of
role/content objects in order. -/
def save_file_content (conversation : Conversation) : Json :=
  Json.arr (conversation.map msgToJson)

/-- Reading one message back: `msg['role']` and `msg['content']` must be
present string fields, as in every transcript the program writes. -/
def jsonToMsg : Json → Option Message
  | Json.obj fields =>
    match jlookup "role" fields, jlookup "content" fields with
    | some (Json.str r), some (Json.str c) => some (Message.mk r c)
    | _, _ => none
  | _ => none

/-- Decoding the items of a transcript array one by one; any item that is
not a role/content object fails the whole read (in the source, the
resulting exception is caught by the caller). -/
def parseMessages : List Json → Option Conversation
  | [] => some []
  | j :: rest =>
    match jsonToMsg j, parseMessages rest with
    | some msg, some msgs => some (msg :: msgs)
    | _, _ => none

/-- Decoding a whole transcript file into a conversation. -/
def parse_conversation : Json → Option Conversation
  | Json.arr items => parseMessages items
  | _ => none

/-- `load_conversation_from_file` (lines 92-101): parse the file; any
failure (I/O, modelled as `none`, or content that is not a transcript
array) is caught, reported, and yields `[]`. -/
def load_conversation_from_file (file : Option Json) : Conversation :=
  match file with
  | some j => (parse_conversation j).getD []
  | none => []

/-! ## Save-filename resolution (source: lines 74-80)

In `save_conversation_to_file`, the interactive prompt, the timestamp
default and the `.json` normalization all sit inside `if not filename:`;
a non-empty `filename` argument bypasses the whole block. -/

/-- The interactive branch (lines 75-80): strip the typed name, substitute
the timestamp default when it is empty, then append `.json` when the name
does not already end with it. -/
def normalize_entered_filename (entered timestamp : String) : String :=
  let typed := pyStrip entered
  let named := if typed = "" then "conversation_" ++ timestamp ++ ".json"
    else typed
  if pyEndsWith named ".json" then named else named ++ ".json"

/-- The filename `save_conversation_to_file` actually writes to, given the
`filename` argument (`none`/`some ""` are Python-falsy) and, for the
interactive branch, the line the user types and the current timestamp. -/
def resolve_save_filename (filename : Option String) (entered timestamp : String) :
    String :=
  if filename.getD "" = "" then normalize_entered_filename entered timestamp
  else filename.getD ""

/-! ## Memory summary (source: `read_memory`, lines 103-133) -/

/-- What `read_memory` reports: the three counts and the rendered tail
lines, in display order. -/
structure MemorySummary where
  total : Nat
  userMessages : Nat
  aiMessages : Nat
  displayed : List String
deriving DecidableEq, Repr

/-- One rendered line of the tail loop (lines 126-128): the role label is
`User` only for role `'user'`, everything else gets the `AI_NAME` label;
content longer than 100 code points is cut to 100 and suffixed `...`. -/
def memoryLine (msg : Message) : String :=
  let role := if msg.role = "user" then "[bold green]User[/bold green]"
    else "[bold cyan]" ++ AI_NAME ++ "[/bold cyan]"
  let content := if pyLen msg.content > 100 then pyTake msg.content 100 ++ "..."
    else msg.content
  role ++ ": " ++ content

/-- The summary `read_memory` computes from a parsed conversation
(lines 112-128): total length, counts of roles `user` and `assistant`, and
the last `max(0, n-4)`-onward messages rendered in original order (the
tail is only rendered when the conversation is non-empty). -/
def read_memory_summary (conversation : Conversation) : MemorySummary :=
  let message_count := conversation.length
  let user_messages := (conversation.filter (fun msg => msg.role = "user")).length
  let ai_messages := (conversation.filter (fun msg => msg.role = "assistant")).length
  let displayed := if message_count > 0 then
      (conversation.drop (message_count - 4)).map memoryLine
    else []
  MemorySummary.mk message_count user_messages ai_messages displayed

/-- `read_memory` (lines 103-133) end to end: on success it displays the
summary and returns the parsed conversation; any failure (missing file or
content whose items lack role/content fields) is caught and yields `[]`
with no summary. -/
def read_memory (file : Option Json) : Conversation × Option MemorySummary :=
  match file with
  | some j =>
    match parse_conversation j with
    | some conversation => (conversation, some (read_memory_summary conversation))
    | none => ([], none)
  | none => ([], none)

/-! ## Spinner protocol and the backend call (source: lines 26-67) -/

/-- Observable events of the foreground thread around one backend call. -/
inductive Event where
  | spinnerStarted
  | backendCalled
  | spinnerStopped
deriving DecidableEq, Repr

/-- The shared state of one spinner handle: the `stop_event` flag and
whether the spinner thread has been joined. -/
structure SpinnerState where
  stopRequested : Bool
  threadJoined : Bool
deriving DecidableEq, Repr

/-- `start_spinner` (lines 36-39): spawn the spinner thread with the stop
flag clear. -/
def start_spinner : SpinnerState :=
  SpinnerState.mk false false

/-- `stop_spinner` (lines 41-43): set the stop event, then join the
thread; `join` returns only once the spinner loop has observed the flag
and terminated. -/
def stop_spinner (s : SpinnerState) : SpinnerState :=
  { s with stopRequested := true, threadJoined := true }

/-- `get_ai_response` (lines 53-67) as the foreground thread's event
trace: start the spinner, call the backend, and on both the return path
and the raise path stop (join) the spinner before control leaves the
function. The backend call is the external collaborator, given here by its
outcome. -/
def get_ai_response (backend : Except String String) :
    List Event × SpinnerState × Except String String :=
  let spinner := start_spinner
  match backend with
  | Except.ok content =>
    ([Event.spinnerStarted, Event.backendCalled, Event.spinnerStopped],
      stop_spinner spinner, Except.ok content)
  | Except.error e =>
    ([Event.spinnerStarted, Event.backendCalled, Event.spinnerStopped],
      stop_spinner spinner, Except.error e)

/-! ## The session loop (source: `run_chatbot`, lines 162-241) -/

/-- One plain-message turn of the loop (lines 211-241): the user message
is appended first; then on backend success the reply is rendered and
appended as an assistant message, while on failure the error is reported
and nothing more is appended. -/
def chatTurn (conversation : Conversation) (user_input : String)
    (backend : Except String String) : Conversation :=
  let conversation := conversation ++ [Message.mk "user" user_input]
  match (get_ai_response backend).2.2 with
  | Except.ok bot_response =>
    conversation ++ [Message.mk "assistant" bot_response]
  | Except.error _ => conversation

/-- Whether a loop iteration breaks out (quit) or continues. -/
inductive LoopAction where
  | breakLoop
  | continueLoop
deriving DecidableEq, Repr

/-- One iteration of the input loop on a read line (lines 195-241): quit
breaks out; `memory <file>` runs `read_memory` for display and discards
its result; anything else runs a chat turn. `memory_file` is the content
of whatever file the memory command names; `backend` the outcome of the
backend call a plain message would trigger. -/
def handle_input (conversation : Conversation) (user_input : String)
    (memory_file : Option Json) (backend : Except String String) :
    Conversation × LoopAction :=
  match classify user_input with
  | Command.quit => (conversation, LoopAction.breakLoop)
  | Command.memory _ =>
    let _summary := read_memory memory_file
    (conversation, LoopAction.continueLoop)
  | Command.plain text =>
    (chatTurn conversation text backend, LoopAction.continueLoop)

/-- Reachable session states of `run_chatbot` (lines 162-241).
`Reachable L c` holds when the live conversation can be `c` in a session
whose `-load` option spliced transcript `L` in at start (`L = []` when
nothing was loaded). Startup (lines 164-189) pushes the system message and
then extends with the loaded transcript; every later iteration is one
`handle_input` step. -/
inductive Reachable : Conversation → Conversation → Prop where
  | startNoLoad (system_prompt : String) :
      Reachable [] [Message.mk "system" system_prompt]
  | startLoad (system_prompt : String) (file : Option Json) :
      Reachable (load_conversation_from_file file)
        (Message.mk "system" system_prompt :: load_conversation_from_file file)
  | step {L c : Conversation} (user_input : String) (memory_file : Option Json)
      (backend : Except String String) :
      Reachable L c →
      Reachable L (handle_input c user_input memory_file backend).1

/-- A concrete transcript as `save_conversation_to_file` would produce it
from a short session: it begins with the session's system message. -/
def savedTranscript : Conversation :=
  [Message.mk "system" "You are a helpful AI assistant",
   Message.mk "user" "hi", Message.mk "assistant" "hello"]

/-- A concrete ten-message transcript: five user questions, five assistant
answers, alternating. -/
def conv10 : Conversation :=
  [Message.mk "user" "q1", Message.mk "assistant" "r1",
   Message.mk "user" "q2", Message.mk "assistant" "r2",
   Message.mk "user" "q3", Message.mk "assistant" "r3",
   Message.mk "user" "q4", Message.mk "assistant" "r4",
   Message.mk "user" "q5", Message.mk "assistant" "r5"]

end ChatUI

namespace ChatUI

/-! ## Helper lemmas -/

/-- Re-reading one serialized message yields the original message. -/
theorem jsonToMsg_msgToJson (msg : Message) :
    jsonToMsg (msgToJson msg) = some msg := rfl

/-- Decoding an encoded conversation succeeds message by message. -/
theorem parseMessages_map (l : Conversation) :
    parseMessages (l.map msgToJson) = some l := by
  induction l with
  | nil => rfl
  | cons msg rest ih =>
    simp [parseMessages, jsonToMsg_msgToJson, ih]

/-- `countRole` distributes over append. -/
theorem countRole_append (r : String) (c d : Conversation) :
    countRole r (c ++ d) = countRole r c + countRole r d := by
  simp [countRole, List.filter_append]

/-- `countRole` on a singleton. -/
theorem countRole_singleton (r : String) (msg : Message) :
    countRole r [msg] = if msg.role = r then 1 else 0 := by
  by_cases h : msg.role = r <;> simp [countRole, List.filter_cons, h]

/-! ## Claim theorems -/

/-- Claim C2: round-trip — saving any Conversation and loading the saved
file back yields the same sequence: same length, same order, every role
and content preserved. -/
theorem load_save_roundtrip (conversation : Conversation) :
    load_conversation_from_file (some (save_file_content conversation)) =
      conversation := by
  simp [load_conversation_from_file, save_file_content, parse_conversation,
    parseMessages_map]

/-- Counterexample to claim C4: calling save with the explicit filename
argument "notes" writes to the file named "notes" — the `.json` extension
is not appended, because the normalization sits inside the interactive
`if not filename:` branch. -/
theorem save_explicit_filename_counterexample :
    resolve_save_filename (some "notes") "" "20240101_120000" = "notes" ∧
    resolve_save_filename (some "notes") "" "20240101_120000" ≠ "notes.json" := by
  decide

/-- Claim C4 as amended: the `.json` normalization applies only to the
interactive branch, entered when the filename argument is absent (or
empty, hence Python-falsy): an interactively typed "notes" is saved as
"notes.json", a typed "notes.json" is kept unchanged, while an explicit
non-empty argument such as "notes" is used verbatim, without appending
the extension. -/
theorem save_filename_normalization (entered timestamp : String) :
    resolve_save_filename none "notes" timestamp = "notes.json" ∧
    resolve_save_filename none "notes.json" timestamp = "notes.json" ∧
    resolve_save_filename (some "notes") entered timestamp = "notes" := by
  refine ⟨?_, ?_, ?_⟩
  · show normalize_entered_filename "notes" timestamp = "notes.json"
    simp only [normalize_entered_filename]
    rw [show pyStrip "notes" = "notes" from rfl]
    rw [if_neg (show ¬ ("notes" = "") from by decide)]
    rw [if_neg (show ¬ (pyEndsWith "notes" ".json" = true) from by decide)]
    rfl
  · show normalize_entered_filename "notes.json" timestamp = "notes.json"
    simp only [normalize_entered_filename]
    rw [show pyStrip "notes.json" = "notes.json" from rfl]
    rw [if_neg (show ¬ ("notes.json" = "") from by decide)]
    rw [if_pos (show pyEndsWith "notes.json" ".json" = true from by decide)]
  · show (some "notes").getD "" = "notes"
    rfl

/-- Claim C5: classification is pure and case-insensitive on the command
keywords: "QUIT" and "exit" classify as quit, "Memory foo.json" as
memory "foo.json", "hello there" as plain "hello there"; any line that is
not quit/exit and does not start with the literal prefix "memory "
(case-insensitively), including the empty string, is a plain message
carrying the original text. -/
theorem classify_spec :
    classify "QUIT" = Command.quit ∧
    classify "exit" = Command.quit ∧
    classify "Memory foo.json" = Command.memory "foo.json" ∧
    classify "hello there" = Command.plain "hello there" ∧
    classify "" = Command.plain "" ∧
    ∀ s : String, lower s ≠ "quit" → lower s ≠ "exit" →
      ¬ (pyStartsWith (lower s) "memory " = true) →
      classify s = Command.plain s := by
  refine ⟨by decide, by decide, by decide, by decide, by decide, ?_⟩
  intro s h1 h2 h3
  unfold classify
  rw [if_neg, if_neg]
  · exact h3
  · rintro (h | h) <;> [exact h1 h; exact h2 h]

/-- Witness for C5: the general plain-message clause applied at a concrete
input. -/
theorem classify_spec_witness :
    classify "hello" = Command.plain "hello" :=
  classify_spec.2.2.2.2.2 "hello" (by decide) (by decide) (by decide)

/-- Claim C3: a turn started from a plain user message grows the
Conversation by exactly 1 when the backend call fails (only the user
message) and by exactly 2 when it succeeds (the user message followed by
the assistant message). -/
theorem turn_length_spec (conversation : Conversation) (user_input : String) :
    (∀ err : String,
      (chatTurn conversation user_input (Except.error err)).length =
        conversation.length + 1) ∧
    (∀ response : String,
      (chatTurn conversation user_input (Except.ok response)).length =
        conversation.length + 2) := by
  constructor <;> intro s <;>
    simp [chatTurn, get_ai_response]

/-- Claim C7: every backend call is bracketed by the progress indicator:
in the foreground trace of `get_ai_response` the spinner start strictly
precedes the backend call and the stop (join) strictly follows it, the
spinner thread is joined when control returns, and the backend outcome is
passed through unchanged — on the success path and the failure path
alike. -/
theorem spinner_bracketing (backend : Except String String) :
    (get_ai_response backend).1 =
      [Event.spinnerStarted, Event.backendCalled, Event.spinnerStopped] ∧
    (get_ai_response backend).2.1.threadJoined = true ∧
    (get_ai_response backend).2.1.stopRequested = true ∧
    (get_ai_response backend).2.2 = backend := by
  cases backend <;>
    simp [get_ai_response, stop_spinner, start_spinner]

/-- Claim C8: handling a `memory <file>` command leaves the live
Conversation unchanged and keeps the session in the input loop, whatever
the named file holds (readable transcript, malformed content, or missing
file) and whatever the backend would have answered. -/
theorem memory_command_frame (conversation : Conversation)
    (user_input file : String) (memory_file : Option Json)
    (backend : Except String String)
    (h : classify user_input = Command.memory file) :
    (handle_input conversation user_input memory_file backend).1 =
      conversation ∧
    (handle_input conversation user_input memory_file backend).2 =
      LoopAction.continueLoop := by
  simp [handle_input, h]

/-- Witness for C8: the memory command on a concrete state, with the named
file missing (`read_memory` fails), leaves the conversation as it was. -/
theorem memory_command_frame_witness :
    (handle_input [Message.mk "system" "P"] "memory foo.json" none
      (Except.error "backend down")).1 = [Message.mk "system" "P"] ∧
    (handle_input [Message.mk "system" "P"] "memory foo.json" none
      (Except.error "backend down")).2 = LoopAction.continueLoop :=
  memory_command_frame [Message.mk "system" "P"] "memory foo.json" "foo.json"
    none (Except.error "backend down") (by decide)

/-- Claim C9: the line "memory" alone (no argument, no trailing space) is
not a memory command and not an error: it is classified as a plain chat
message, appended to the Conversation as a user message, and the loop
continues. -/
theorem memory_bare_word_is_plain :
    classify "memory" = Command.plain "memory" ∧
    ∀ (conversation : Conversation) (memory_file : Option Json)
      (backend : Except String String),
      (∃ rest,
        (handle_input conversation "memory" memory_file backend).1 =
          conversation ++ Message.mk "user" "memory" :: rest) ∧
      (handle_input conversation "memory" memory_file backend).2 =
        LoopAction.continueLoop := by
  have hc : classify "memory" = Command.plain "memory" := by decide
  refine ⟨hc, ?_⟩
  intro conversation memory_file backend
  cases backend with
  | ok response =>
    exact ⟨⟨[Message.mk "assistant" response],
      by simp [handle_input, hc, chatTurn, get_ai_response]⟩,
      by simp [handle_input, hc]⟩
  | error e =>
    exact ⟨⟨[], by simp [handle_input, hc, chatTurn, get_ai_response]⟩,
      by simp [handle_input, hc]⟩

/-- Claim C6: on a transcript of 5 user and 5 assistant messages (10
total), the summary reports total=10, user=5, assistant=5, and displays
exactly the last 4 messages in their original order, each rendered with
its role label and its content cut to the first 100 characters plus an
ellipsis when longer than 100, unmodified otherwise. -/
theorem summary_report (conversation : Conversation)
    (hlen : conversation.length = 10)
    (huser : countRole "user" conversation = 5)
    (hai : countRole "assistant" conversation = 5) :
    (read_memory_summary conversation).total = 10 ∧
    (read_memory_summary conversation).userMessages = 5 ∧
    (read_memory_summary conversation).aiMessages = 5 ∧
    (read_memory_summary conversation).displayed =
      (conversation.drop 6).map (fun msg =>
        (if msg.role = "user" then "[bold green]User[/bold green]"
          else "[bold cyan]" ++ AI_NAME ++ "[/bold cyan]") ++ ": " ++
        (if pyLen msg.content > 100 then pyTake msg.content 100 ++ "..."
          else msg.content)) ∧
    (conversation.drop 6).length = 4 := by
  refine ⟨?_, ?_, ?_, ?_, ?_⟩
  · exact hlen
  · exact huser
  · exact hai
  · simp only [read_memory_summary, hlen]
    rfl
  · simp [hlen]

/-- Witness for C6: the summary of a concrete ten-message transcript. -/
theorem summary_report_witness :
    (read_memory_summary conv10).total = 10 ∧
    (read_memory_summary conv10).userMessages = 5 ∧
    (read_memory_summary conv10).aiMessages = 5 ∧
    (read_memory_summary conv10).displayed =
      (conv10.drop 6).map (fun msg =>
        (if msg.role = "user" then "[bold green]User[/bold green]"
          else "[bold cyan]" ++ AI_NAME ++ "[/bold cyan]") ++ ": " ++
        (if pyLen msg.content > 100 then pyTake msg.content 100 ++ "..."
          else msg.content)) ∧
    (conv10.drop 6).length = 4 :=
  summary_report conv10 (by decide) (by decide) (by decide)

/-- Claim C10: the tail display's role label is binary — any message whose
role is not exactly `user` (system roles and unrecognized roles included)
is labeled with the assistant name — while the total counts messages of
every role and the user/assistant counts include only the exact roles
`user` and `assistant`. -/
theorem role_label_binary :
    (∀ msg : Message, msg.role ≠ "user" →
      memoryLine msg = "[bold cyan]" ++ AI_NAME ++ "[/bold cyan]" ++ ": " ++
        (if pyLen msg.content > 100 then pyTake msg.content 100 ++ "..."
          else msg.content)) ∧
    ∀ conversation : Conversation,
      (read_memory_summary conversation).total = conversation.length ∧
      (read_memory_summary conversation).userMessages =
        countRole "user" conversation ∧
      (read_memory_summary conversation).aiMessages =
        countRole "assistant" conversation := by
  constructor
  · intro msg h
    simp [memoryLine, h]
  · intro conversation
    exact ⟨rfl, rfl, rfl⟩

/-- Witness for C10: a system-role message is labeled with the assistant
name in the tail display. -/
theorem role_label_binary_witness :
    memoryLine (Message.mk "system" "boot") =
      "[bold cyan]" ++ AI_NAME ++ "[/bold cyan]" ++ ": " ++
        (if pyLen "boot" > 100 then pyTake "boot" 100 ++ "..." else "boot") :=
  role_label_binary.1 (Message.mk "system" "boot") (by decide)

/-- Every loop iteration only appends, and what it appends carries no
system role: quit and memory leave the conversation alone, a chat turn
appends a user message and possibly an assistant message. -/
theorem handle_input_extends (conversation : Conversation)
    (user_input : String) (memory_file : Option Json)
    (backend : Except String String) :
    ∃ extra, (handle_input conversation user_input memory_file backend).1 =
      conversation ++ extra ∧ countRole "system" extra = 0 := by
  cases hc : classify user_input with
  | quit => exact ⟨[], by simp [handle_input, hc], by simp [countRole]⟩
  | memory file => exact ⟨[], by simp [handle_input, hc], by simp [countRole]⟩
  | plain text =>
    cases backend with
    | ok response =>
      refine ⟨[Message.mk "user" text, Message.mk "assistant" response], ?_, ?_⟩
      · simp [handle_input, hc, chatTurn, get_ai_response]
      · simp [countRole, List.filter_cons]
    | error e =>
      refine ⟨[Message.mk "user" text], ?_, ?_⟩
      · simp [handle_input, hc, chatTurn, get_ai_response]
      · simp [countRole, List.filter_cons]

/-- Counterexample to claim C1: a transcript saved by the program itself
begins with a system message, so starting a session with `-load` of that
file yields a reachable state holding two system-role messages — the
"exactly once" part of the claim fails. -/
theorem system_message_duplication :
    Reachable savedTranscript
      (Message.mk "system" "fresh session prompt" :: savedTranscript) ∧
    countRole "system"
      (Message.mk "system" "fresh session prompt" :: savedTranscript) = 2 := by
  constructor
  · have e : load_conversation_from_file
        (some (save_file_content savedTranscript)) = savedTranscript := by
      decide
    have h := Reachable.startLoad "fresh session prompt"
      (some (save_file_content savedTranscript))
    rwa [e] at h
  · decide

/-- Claim C1 as amended: every reachable state is non-empty and starts
with the session's system message, and the number of system-role messages
is exactly one more than the loaded transcript contributed — so `system`
appears exactly once precisely when the transcript spliced in by `-load`
(if any) holds no system-role messages; messages appended during the
session never add one. -/
theorem system_message_invariant {L c : Conversation} (h : Reachable L c) :
    (∃ prompt rest, c = Message.mk "system" prompt :: rest) ∧
    countRole "system" c = 1 + countRole "system" L := by
  induction h with
  | startNoLoad prompt =>
    refine ⟨⟨prompt, [], rfl⟩, ?_⟩
    simp [countRole, List.filter_cons]
  | startLoad prompt file =>
    refine ⟨⟨prompt, _, rfl⟩, ?_⟩
    rw [show Message.mk "system" prompt :: load_conversation_from_file file =
      [Message.mk "system" prompt] ++ load_conversation_from_file file from rfl]
    rw [countRole_append, countRole_singleton, if_pos rfl]
  | step user_input memory_file backend hr ih =>
    obtain ⟨⟨prompt, rest, hhead⟩, hcount⟩ := ih
    obtain ⟨extra, hext, hzero⟩ :=
      handle_input_extends _ user_input memory_file backend
    constructor
    · exact ⟨prompt, rest ++ extra, by rw [hext, hhead]; simp⟩
    · rw [hext, countRole_append, hzero, hcount]
      omega

/-- Witness for the amended C1 invariant: the freshly started session with
nothing loaded. -/
theorem system_message_invariant_witness :
    (∃ prompt rest, [Message.mk "system" "boot prompt"] =
      Message.mk "system" prompt :: rest) ∧
    countRole "system" [Message.mk "system" "boot prompt"] =
      1 + countRole "system" ([] : Conversation) :=
  system_message_invariant (Reachable.startNoLoad "boot prompt")

end ChatUI
